import Mathlib

/-!
Verification of the invoice extraction and reconciliation engine of
`interview-invoice-chat` (the upload-processing routes in
`src/app/(chat)/api/files/upload/process/route.ts`).

The source bundles two near-identical route variants in that file; where
the two copies of a function differ, both are embedded (`...V1` for the
copy in the first variant, `...V2` for the copy in the second).  Numeric
invoice fields are modelled as rationals (the record shape guaranteed by
the data contract); JavaScript `parseFloat(x.toFixed(2))` is modelled by
`round2`.  A case-insensitive literal keyword regex such as
`/bank\s+statement/i` is modelled by lower-casing the text, collapsing
each whitespace run to a single space, and testing for the keyword as a
substring.
-/

/-- JavaScript `s.includes(pat)`: substring test. -/
def strContains (s pat : String) : Bool :=
  decide (List.IsInfix pat.toList s.toList)

/-- JavaScript `s.toLowerCase().includes(pat)` for a lower-case
pattern. -/
def strContainsLower (s pat : String) : Bool :=
  decide (List.IsInfix pat.toList (s.toList.map Char.toLower))

/-- The maximal whitespace-free words of a character list, in order
(`acc` holds the reversed current word). -/
def wordsAux : List Char → List Char → List (List Char)
  | [], acc => if acc.isEmpty then [] else [acc.reverse]
  | c :: rest, acc =>
    if c.isWhitespace then
      if acc.isEmpty then wordsAux rest [] else acc.reverse :: wordsAux rest []
    else wordsAux rest (c :: acc)

/-- Join words with single spaces. -/
def joinSpace : List (List Char) → List Char
  | [] => []
  | [w] => w
  | w :: ws => w ++ ' ' :: joinSpace ws

/-- Collapse every whitespace run to a single space and trim (used to
model the `\s+` separators inside the keyword regexes). -/
def collapseWSList (l : List Char) : List Char :=
  joinSpace (wordsAux l [])

/-- Model of a case-insensitive literal keyword regex test such as
`/bank\s+statement/i`: lower-case and whitespace-collapse the text, then
test for the single-space form of the keyword as a substring. -/
def keywordHit (text kw : String) : Bool :=
  decide (List.IsInfix kw.toList (collapseWSList (text.toList.map Char.toLower)))

/-- JavaScript `parseFloat(x.toFixed(2))` on a rational: round to two
decimal places. -/
def round2 (q : ℚ) : ℚ :=
  ((round (q * 100) : ℤ) : ℚ) / 100

/-- A line item of an extracted invoice (the item objects of route.ts). -/
structure LineItem where
  description : String
  quantity : ℚ
  unitPrice : ℚ
  amount : ℚ
  deriving DecidableEq

/-- The extracted-invoice record handled by every strategy and by the
reconciliation and merge steps.  `extractionMethods` is `[]` when the key
is absent from the JavaScript object. -/
structure ExtractedInvoice where
  invoiceNumber : String
  date : String
  dueDate : String
  vendor : String
  customer : String
  items : List LineItem
  subtotal : ℚ
  tax : ℚ
  total : ℚ
  extractionMethods : List String
  deriving DecidableEq

/-- One strategy attempt: `{ method, confidence, data }`. -/
structure ExtractionResult where
  method : String
  confidence : ℚ
  data : ExtractedInvoice
  deriving DecidableEq

/-- Per-item step of `validateInvoiceData` (route.ts 2497-2501, likewise
1127-1132): recompute `quantity * unitPrice` and overwrite `amount` with
the rounded product when the stored amount is off by more than 0.1.  The
string-to-number coercions (2484-2495) are the identity on number-typed
fields and these fields are number-typed here. -/
def normalizeLineItem (item : LineItem) : LineItem :=
  let calculatedAmount := item.quantity * item.unitPrice
  if |calculatedAmount - item.amount| > 1 / 10 then
    { item with amount := round2 calculatedAmount }
  else item

/-- Total reconciliation of the first variant's `validateInvoiceData`
(route.ts 1142-1147): whenever the rounded items sum is more than 1 away
from the extracted total, the total is overwritten with the rounded items
sum, unconditionally and without adding tax. -/
def reconcileTotalV1 (itemsTotal total : ℚ) : ℚ :=
  if |itemsTotal - total| > 1 then itemsTotal else total

/-- Total reconciliation of the second variant's `validateInvoiceData`
(route.ts 2511-2526): when the rounded items sum is more than 1 away from
the extracted total, keep the extracted total if `round2 (itemsTotal + tax)`
is within 1 of it, and otherwise overwrite the total with
`round2 (itemsTotal + tax)`. -/
def reconcileTotalV2 (itemsTotal tax total : ℚ) : ℚ :=
  if |itemsTotal - total| > 1 then
    if |round2 (itemsTotal + tax) - total| ≤ 1 then total
    else round2 (itemsTotal + tax)
  else total

/-- `validateInvoiceData` of the first route variant (route.ts 1089-1156)
on number-typed records: normalize every line item, then reconcile the
total against the rounded items sum with `reconcileTotalV1`.  All other
fields are carried over unchanged. -/
def validateInvoiceDataV1 (data : ExtractedInvoice) : ExtractedInvoice :=
  let items := data.items.map normalizeLineItem
  { data with
    items := items
    total := reconcileTotalV1 (round2 ((items.map LineItem.amount).sum)) data.total }

/-- `validateInvoiceData` of the second route variant (route.ts
2459-2535) on number-typed records: normalize every line item, then
reconcile the total with `reconcileTotalV2` (the tax-aware rule).  All
other fields are carried over unchanged. -/
def validateInvoiceDataV2 (data : ExtractedInvoice) : ExtractedInvoice :=
  let items := data.items.map normalizeLineItem
  { data with
    items := items
    total :=
      reconcileTotalV2 (round2 ((items.map LineItem.amount).sum)) data.tax data.total }

/-- The placeholder line item of `extractItemsFromText` (route.ts 2760,
likewise 1380). -/
def itemNotDetected : LineItem :=
  { description := "Item not detected", quantity := 1, unitPrice := 0, amount := 0 }

/-- The final return of `extractItemsFromText` (route.ts 2758-2761,
likewise 1378-1381).  The four strategy passes of the parser accumulate
the list `items`; a non-empty list is returned as-is, and an empty one is
replaced by the single placeholder item. -/
def extractItemsFromTextFinal (items : List LineItem) : List LineItem :=
  if items.length > 0 then items else [itemNotDetected]

/-- `isEmptyOrDefault` of `mergeExtractionResults` (route.ts 2329-2335)
on a string-typed field. -/
def isEmptyOrDefaultStr (s : String) : Bool :=
  s == "" || s == "Unknown" || strContains s "Unknown"

/-- `isEmptyOrDefault` on the `total` field: a number counts as default
exactly when the field is `total` and the value is 0 (route.ts 2332). -/
def isEmptyOrDefaultTotal (q : ℚ) : Bool :=
  q == 0

/-- `isEmptyOrDefault` on the `items` field (route.ts 2333): an empty
list, or a one-element list whose description contains
"Unable to extract".  Note the test is not for the parser's
"Item not detected" placeholder. -/
def isEmptyOrDefaultItems : List LineItem → Bool
  | [] => true
  | [item] => strContains item.description "Unable to extract"
  | _ => false

/-- The general per-field merge rule (route.ts 2343-2347) on a
string-typed field: take the alternative only if the current value is
empty-or-default and the alternative is not. -/
def mergeField (cur alt : String) : String :=
  if isEmptyOrDefaultStr cur && !isEmptyOrDefaultStr alt then alt else cur

/-- One iteration of the merge loop (route.ts 2342-2358): the general
empty-or-default rule applied to every field of the lower-confidence
record, then the item-count special case (2349-2357) evaluated against
the already-updated items list.  `subtotal` and `tax` are number fields
other than `total`, for which `isEmptyOrDefault` is always false, so they
are never replaced. -/
def mergeStep (merged alt : ExtractedInvoice) : ExtractedInvoice :=
  let items1 :=
    if isEmptyOrDefaultItems merged.items && !isEmptyOrDefaultItems alt.items then
      alt.items
    else merged.items
  let items2 :=
    if alt.items.length > items1.length ∧ items1.length ≤ 1 then alt.items
    else items1
  { merged with
    invoiceNumber := mergeField merged.invoiceNumber alt.invoiceNumber
    date := mergeField merged.date alt.date
    dueDate := mergeField merged.dueDate alt.dueDate
    vendor := mergeField merged.vendor alt.vendor
    customer := mergeField merged.customer alt.customer
    items := items2
    total :=
      if isEmptyOrDefaultTotal merged.total && !isEmptyOrDefaultTotal alt.total then
        alt.total
      else merged.total }

/-- Whether the merge-loop iteration assigned any field (the `methodUsed`
bookkeeping of route.ts 2340, 2346, 2356). -/
def mergeStepUsed (merged alt : ExtractedInvoice) : Bool :=
  (isEmptyOrDefaultStr merged.invoiceNumber && !isEmptyOrDefaultStr alt.invoiceNumber) ||
  (isEmptyOrDefaultStr merged.date && !isEmptyOrDefaultStr alt.date) ||
  (isEmptyOrDefaultStr merged.dueDate && !isEmptyOrDefaultStr alt.dueDate) ||
  (isEmptyOrDefaultStr merged.vendor && !isEmptyOrDefaultStr alt.vendor) ||
  (isEmptyOrDefaultStr merged.customer && !isEmptyOrDefaultStr alt.customer) ||
  (isEmptyOrDefaultItems merged.items && !isEmptyOrDefaultItems alt.items) ||
  (isEmptyOrDefaultTotal merged.total && !isEmptyOrDefaultTotal alt.total) ||
  (let items1 :=
    if isEmptyOrDefaultItems merged.items && !isEmptyOrDefaultItems alt.items then
      alt.items
    else merged.items
   decide (alt.items.length > items1.length ∧ items1.length ≤ 1))

/-- The merge loop over the lower-confidence results (route.ts
2338-2363), threading the merged record and the `usedMethods` list. -/
def mergeLoop : ExtractedInvoice → List String → List ExtractionResult →
    ExtractedInvoice × List String
  | merged, used, [] => (merged, used)
  | merged, used, r :: rest =>
    let used' :=
      if mergeStepUsed merged r.data && !(used.contains r.method) then
        used ++ [r.method]
      else used
    mergeLoop (mergeStep merged r.data) used' rest

/-- Insertion into a list kept in descending-confidence order. -/
def orderedInsertDesc (x : ExtractionResult) :
    List ExtractionResult → List ExtractionResult
  | [] => [x]
  | y :: ys =>
    if y.confidence ≤ x.confidence then x :: y :: ys
    else y :: orderedInsertDesc x ys

/-- `results.sort((a, b) => b.confidence - a.confidence)` (route.ts
2320): sort the strategy results by descending confidence. -/
def sortByConfidenceDesc : List ExtractionResult → List ExtractionResult
  | [] => []
  | x :: xs => orderedInsertDesc x (sortByConfidenceDesc xs)

/-- An all-blank record, used only for the empty input list, which the
source never passes to `mergeExtractionResults`. -/
def emptyExtractedInvoice : ExtractedInvoice :=
  { invoiceNumber := "", date := "", dueDate := "", vendor := "", customer := "",
    items := [], subtotal := 0, tax := 0, total := 0, extractionMethods := [] }

/-- `mergeExtractionResults` before its trailing `validateInvoiceData`
call (route.ts 2318-2366): sort by descending confidence, start from the
highest-confidence record, fold the merge rule over the remaining
results, and store the contributing methods in `extractionMethods`. -/
def mergeCore (results : List ExtractionResult) : ExtractedInvoice :=
  match sortByConfidenceDesc results with
  | [] => emptyExtractedInvoice
  | r :: rest =>
    let p := mergeLoop r.data [r.method] rest
    { p.1 with extractionMethods := p.2 }

/-- `mergeExtractionResults` of the first route variant (route.ts
941-995): the merge loop followed by that variant's
`validateInvoiceData`. -/
def mergeExtractionResultsV1 (results : List ExtractionResult) : ExtractedInvoice :=
  validateInvoiceDataV1 (mergeCore results)

/-- `mergeExtractionResults` of the second route variant (route.ts
2318-2370): the merge loop followed by that variant's
`validateInvoiceData`. -/
def mergeExtractionResultsV2 (results : List ExtractionResult) : ExtractedInvoice :=
  validateInvoiceDataV2 (mergeCore results)

/-- The result dispatch at the end of `extractInvoiceData` (route.ts
806-826): with several strategy results merge them, with exactly one
return its record, and with none return the sentinel record.  `today`
and `todayPlus30` stand for the two date strings the source computes from
the clock. -/
def extractInvoiceDataDispatch (results : List ExtractionResult)
    (today todayPlus30 : String) : ExtractedInvoice :=
  if results.length > 1 then mergeExtractionResultsV1 results
  else
    match results with
    | [r] => r.data
    | _ =>
      { invoiceNumber := "Unknown", date := today, dueDate := todayPlus30,
        vendor := "Unknown Vendor", customer := "Unknown Customer",
        items := [{ description := "Unable to extract items", quantity := 1,
                    unitPrice := 0, amount := 0 }],
        subtotal := 0, tax := 0, total := 0, extractionMethods := [] }

/-- Due-date resolution tail of `extractInvoiceDataWithRegex` (route.ts
525-542, likewise 1905-1922), with calendar dates as day numbers.
`explicitDue` is a directly matched due-date string; `netDays` is the
number taken from a "Net N days" term (0 when no such term matched);
`invoiceDate` is the parsed invoice date (`none` when `new Date(date)` is
invalid); `today` is the current day.  An explicit match is kept; else a
positive `netDays` with a parseable invoice date yields
`invoiceDate + netDays`; else the final fallback (539-542) is always
`today + 30`, regardless of the invoice date. -/
def resolveDueDate (explicitDue : Option String) (netDays : ℤ)
    (invoiceDate : Option ℤ) (today : ℤ) : String ⊕ ℤ :=
  match explicitDue with
  | some s => Sum.inl s
  | none =>
    if 0 < netDays then
      match invoiceDate with
      | some d => Sum.inr (d + netDays)
      | none => Sum.inr (today + 30)
    else Sum.inr (today + 30)

/-- A JavaScript word character (`\w`). -/
def isWordChar (c : Char) : Bool :=
  c.isAlphanum || c == '_'

/-- Whether a character list starts with four digits (`\d{4}`). -/
def fourDigits : List Char → Bool
  | a :: b :: c :: d :: _ => a.isDigit && b.isDigit && c.isDigit && d.isDigit
  | _ => false

/-- Matcher for the part after "card" in `/card\s+\w+\s+\d{4}/i`:
whitespace, a word, whitespace, then four digits.  Since `\s` matches no
word character and no digit, the greedy runs used here coincide with the
regex's backtracking search. -/
def cardTail (l : List Char) : Bool :=
  let p1 := l.span Char.isWhitespace
  let p2 := p1.2.span isWordChar
  let p3 := p2.2.span Char.isWhitespace
  !p1.1.isEmpty && !p2.1.isEmpty && !p3.1.isEmpty && fourDigits p3.2

/-- Whether `/card\s+\w+\s+\d{4}/` matches at the head of the list. -/
def cardHere (l : List Char) : Bool :=
  match l with
  | 'c' :: 'a' :: 'r' :: 'd' :: t => cardTail t
  | _ => false

/-- Scan for a `/card\s+\w+\s+\d{4}/` match anywhere in the list. -/
def cardScan : List Char → Bool
  | [] => false
  | c :: rest => cardHere (c :: rest) || cardScan rest

/-- The receipt keyword regex `/card\s+\w+\s+\d{4}/i` (route.ts 2926),
evaluated like the literal keywords on the lower-cased,
whitespace-collapsed text. -/
def cardKeywordHit (text : String) : Bool :=
  cardScan (collapseWSList (text.toList.map Char.toLower))

/-- `allTextFields` of `validateIsInvoice` (route.ts 2930-2935): vendor,
customer, invoice number and every item description joined with single
spaces. -/
def allTextFields (r : ExtractedInvoice) : String :=
  ⟨joinSpace ([r.vendor.toList, r.customer.toList, r.invoiceNumber.toList] ++
      r.items.map (fun i => i.description.toList))⟩

/-- `hasInvoiceNumber` of `validateIsInvoice` (route.ts 2868-2870). -/
def hasInvoiceNumberB (r : ExtractedInvoice) : Bool :=
  !(r.invoiceNumber == "") && !(r.invoiceNumber == "Unknown") &&
    decide (0 < r.invoiceNumber.length)

/-- `hasLineItems` of `validateIsInvoice` (route.ts 2872-2877). -/
def hasLineItemsB (r : ExtractedInvoice) : Bool :=
  match r.items with
  | [] => false
  | item :: _ =>
    !(strContains item.description "Unable to extract") &&
      !(strContains item.description "not detected")

/-- `hasTotal` of `validateIsInvoice` (route.ts 2880). -/
def hasTotalB (r : ExtractedInvoice) : Bool :=
  decide (0 < r.total)

/-- `hasVendorInfo` of `validateIsInvoice` (route.ts 2883-2885). -/
def hasVendorInfoB (r : ExtractedInvoice) : Bool :=
  !(r.vendor == "") && !(r.vendor == "Unknown Vendor") && decide (0 < r.vendor.length)

/-- The statement keyword regexes of `validateIsInvoice` (route.ts
2888-2911), each in collapsed lower-case literal form. -/
def statementKeywords : List String :=
  ["bank statement", "account statement", "credit card",
   "statement of account", "monthly statement", "quarterly statement",
   "account summary", "balance summary", "transaction history",
   "account activity", "opening balance", "closing balance",
   "condominium association", "homeowners association", "hoa",
   "assessment", "maintenance fee", "regular assessment",
   "special assessment", "association fee", "monthly fee", "reserve fund"]

/-- The literal receipt keyword regexes of `validateIsInvoice` (route.ts
2914-2927), except `/card\s+\w+\s+\d{4}/i`, which `cardKeywordHit`
models. -/
def receiptKeywords : List String :=
  ["receipt", "thank you for your purchase", "thank you for shopping",
   "cash receipt", "payment receipt", "store receipt", "return policy",
   "cashier:", "terminal:", "register:", "transaction id"]

/-- `isLikelyStatement` (route.ts 2938). -/
def isLikelyStatementB (r : ExtractedInvoice) : Bool :=
  statementKeywords.any (fun kw => keywordHit (allTextFields r) kw)

/-- `isLikelyReceipt` (route.ts 2941). -/
def isLikelyReceiptB (r : ExtractedInvoice) : Bool :=
  receiptKeywords.any (fun kw => keywordHit (allTextFields r) kw) ||
    cardKeywordHit (allTextFields r)

/-- `hasStatementStructure` (route.ts 2944-2947), with the source's
operator precedence: `&&` binds tighter than `||`, so the
missing-invoice-number conjunct guards only the balance/transaction
disjunct and not the payment/balance one.  The two `includes` tests are
case-sensitive in the source and are modelled so. -/
def hasStatementStructureB (r : ExtractedInvoice) : Bool :=
  (!(hasInvoiceNumberB r) &&
      (strContains (allTextFields r) "balance" &&
        strContains (allTextFields r) "transaction")) ||
    (strContains (allTextFields r) "payment" &&
      strContains (allTextFields r) "balance")

/-- `hasReceiptStructure` (route.ts 2950-2953). -/
def hasReceiptStructureB (r : ExtractedInvoice) : Bool :=
  !(hasInvoiceNumberB r) &&
    strContainsLower (allTextFields r) "total" &&
    !(strContainsLower (allTextFields r) "invoice")

/-- `isCondoStatement` (route.ts 2956-2958):
`/condominium|association|community|homeowner/i` with fewer than two
line items. -/
def isCondoStatementB (r : ExtractedInvoice) : Bool :=
  (keywordHit (allTextFields r) "condominium" ||
      keywordHit (allTextFields r) "association" ||
      keywordHit (allTextFields r) "community" ||
      keywordHit (allTextFields r) "homeowner") &&
    (!(hasLineItemsB r) || decide (r.items.length < 2))

/-- `isEmptyInvoice` (route.ts 2961-2963). -/
def isEmptyInvoiceB (r : ExtractedInvoice) : Bool :=
  (!(hasLineItemsB r) || decide (r.items.length = 0)) &&
    (decide (0 < r.subtotal) || decide (0 < r.total))

/-- `hasNumericInconsistency` (route.ts 2966-2968). -/
def hasNumericInconsistencyB (r : ExtractedInvoice) : Bool :=
  decide (1000 < |r.subtotal - r.total|) ||
    (decide (1000 < r.subtotal) && decide (r.total < 100))

/-- `validateIsInvoice` (route.ts 2864-2981): any statement or receipt
indicator rejects; otherwise the record must have an invoice number,
genuine line items, a positive total and vendor information. -/
def validateIsInvoice (r : ExtractedInvoice) : Bool :=
  if isLikelyStatementB r || isLikelyReceiptB r || hasStatementStructureB r ||
      hasReceiptStructureB r || isCondoStatementB r || isEmptyInvoiceB r ||
      hasNumericInconsistencyB r then
    false
  else
    hasInvoiceNumberB r && hasLineItemsB r && hasTotalB r && hasVendorInfoB r

/-- The claim's notion of a default items list, from the specification's
words: "an items list that is empty or consists only of the
items-not-detected placeholder".  Compare `isEmptyOrDefaultItems`, which
the source uses instead and which tests for the "Unable to extract"
placeholder. -/
def specEmptyOrDefaultItems (l : List LineItem) : Bool :=
  l == [] || l == [itemNotDetected]

/-- Record with consistent items summing to 100, tax 8 and extracted
total 108 (the total-with-tax example of the claims). -/
def c1rec : ExtractedInvoice :=
  { invoiceNumber := "INV-2024-001", date := "2024-03-15", dueDate := "2024-04-14",
    vendor := "Acme Corp", customer := "Beta LLC",
    items := [{ description := "Consulting", quantity := 1, unitPrice := 100, amount := 100 }],
    subtotal := 100, tax := 8, total := 108, extractionMethods := [] }

/-- High-confidence result whose vendor is the "Unknown Vendor"
default. -/
def exA : ExtractionResult :=
  { method := "gemini", confidence := 9 / 10,
    data :=
      { invoiceNumber := "INV-77", date := "2024-01-02", dueDate := "2024-02-01",
        vendor := "Unknown Vendor", customer := "Gamma LLC",
        items := [{ description := "Hosting", quantity := 2, unitPrice := 50, amount := 100 }],
        subtotal := 100, tax := 0, total := 100, extractionMethods := [] } }

/-- Lower-confidence result with a genuine vendor. -/
def exB : ExtractionResult :=
  { method := "regex", confidence := 7 / 10,
    data :=
      { invoiceNumber := "INV-77", date := "2024-01-02", dueDate := "2024-02-01",
        vendor := "Acme Corp", customer := "Gamma LLC",
        items := [{ description := "Hosting plan", quantity := 2, unitPrice := 50, amount := 100 }],
        subtotal := 100, tax := 0, total := 100, extractionMethods := [] } }

/-- High-confidence result with one genuine (non-placeholder) line
item. -/
def c3A : ExtractionResult :=
  { method := "gemini", confidence := 9 / 10,
    data :=
      { invoiceNumber := "INV-100", date := "2024-01-01", dueDate := "2024-01-31",
        vendor := "Acme Corp", customer := "Beta LLC",
        items := [{ description := "Widget", quantity := 1, unitPrice := 10, amount := 10 }],
        subtotal := 10, tax := 0, total := 10, extractionMethods := [] } }

/-- Lower-confidence result with two line items. -/
def c3B : ExtractionResult :=
  { method := "regex", confidence := 7 / 10,
    data :=
      { invoiceNumber := "INV-200", date := "2024-01-01", dueDate := "2024-01-31",
        vendor := "Other Corp", customer := "Beta LLC",
        items := [{ description := "Alpha", quantity := 1, unitPrice := 5, amount := 5 },
                  { description := "Beta", quantity := 1, unitPrice := 5, amount := 5 }],
        subtotal := 10, tax := 0, total := 10, extractionMethods := [] } }

/-- A record with a resolved invoice number whose customer field happens
to contain the words "payment" and "balance"; no other rejection
indicator of `validateIsInvoice` applies to it. -/
def c4rec : ExtractedInvoice :=
  { invoiceNumber := "INV-7788", date := "2024-03-15", dueDate := "2024-04-14",
    vendor := "Acme Widgets Inc", customer := "Beta payment balance Corp",
    items := [{ description := "Widget", quantity := 2, unitPrice := 10, amount := 20 }],
    subtotal := 20, tax := 0, total := 20, extractionMethods := [] }

theorem normalizeLineItem_idem (i : LineItem) :
    normalizeLineItem (normalizeLineItem i) = normalizeLineItem i := by
  simp only [normalizeLineItem]
  split_ifs <;> rfl

theorem map_normalizeLineItem_idem (l : List LineItem) :
    (l.map normalizeLineItem).map normalizeLineItem = l.map normalizeLineItem := by
  induction l with
  | nil => rfl
  | cons a t ih => simp only [List.map_cons, normalizeLineItem_idem, ih]

theorem reconcileTotalV1_idem (s t : ℚ) :
    reconcileTotalV1 s (reconcileTotalV1 s t) = reconcileTotalV1 s t := by
  unfold reconcileTotalV1
  split_ifs <;> rfl

theorem reconcileTotalV2_idem (s tax t : ℚ) :
    reconcileTotalV2 s tax (reconcileTotalV2 s tax t) = reconcileTotalV2 s tax t := by
  unfold reconcileTotalV2
  split_ifs <;> rfl

theorem validateInvoiceDataV1_idem (r : ExtractedInvoice) :
    validateInvoiceDataV1 (validateInvoiceDataV1 r) = validateInvoiceDataV1 r := by
  unfold validateInvoiceDataV1
  simp only [map_normalizeLineItem_idem, reconcileTotalV1_idem]

theorem validateInvoiceDataV2_idem (r : ExtractedInvoice) :
    validateInvoiceDataV2 (validateInvoiceDataV2 r) = validateInvoiceDataV2 r := by
  unfold validateInvoiceDataV2
  simp only [map_normalizeLineItem_idem, reconcileTotalV2_idem]

/-- C2: the reconciliation step is idempotent.  Both copies of
`validateInvoiceData` (the second-variant `validateInvoiceDataV2` and
the first-variant `validateInvoiceDataV1`) map their own output to
itself, so re-running reconciliation changes no value. -/
theorem c2_reconcile_idempotent (r : ExtractedInvoice) :
    validateInvoiceDataV2 (validateInvoiceDataV2 r) = validateInvoiceDataV2 r ∧
    validateInvoiceDataV1 (validateInvoiceDataV1 r) = validateInvoiceDataV1 r :=
  ⟨validateInvoiceDataV2_idem r, validateInvoiceDataV1_idem r⟩

/-- C5: the line-item parser never returns an empty sequence: its final
return guard hands back the accumulated items when there are any, and
exactly the single placeholder item
`{description := "Item not detected", quantity := 1, unitPrice := 0, amount := 0}`
when every strategy pass found nothing. -/
theorem c5_items_nonempty (items : List LineItem) :
    extractItemsFromTextFinal items ≠ [] ∧
    (items = [] → extractItemsFromTextFinal items = [itemNotDetected]) := by
  rcases items with _ | ⟨a, t⟩
  · exact ⟨by simp [extractItemsFromTextFinal], fun _ => rfl⟩
  · exact ⟨by simp [extractItemsFromTextFinal], fun h => absurd h (List.cons_ne_nil a t)⟩

/-- C5 witness: the guard evaluated at the empty strategy outcome yields
exactly the placeholder and is non-empty. -/
theorem c5_items_nonempty_witness :
    extractItemsFromTextFinal [] = [itemNotDetected] ∧
    extractItemsFromTextFinal [] ≠ [] :=
  ⟨(c5_items_nonempty []).2 rfl, (c5_items_nonempty []).1⟩

/-- C6: the per-item reconciliation recomputes `quantity * unitPrice`
and replaces the stored amount with the rounded product exactly when the
stored amount is off by more than 0.1, leaving the other item fields
unchanged; both `validateInvoiceData` copies apply this map to every
item; and the item `{quantity := 3, unitPrice := 10, amount := 25}` is
corrected to amount 30. -/
theorem c6_amount_reconciliation :
    (∀ item : LineItem,
        (normalizeLineItem item).amount =
          (if |item.quantity * item.unitPrice - item.amount| > 1 / 10 then
            round2 (item.quantity * item.unitPrice)
          else item.amount) ∧
        (normalizeLineItem item).description = item.description ∧
        (normalizeLineItem item).quantity = item.quantity ∧
        (normalizeLineItem item).unitPrice = item.unitPrice) ∧
    (∀ r : ExtractedInvoice,
        (validateInvoiceDataV2 r).items = r.items.map normalizeLineItem ∧
        (validateInvoiceDataV1 r).items = r.items.map normalizeLineItem) ∧
    normalizeLineItem
        { description := "Service", quantity := 3, unitPrice := 10, amount := 25 } =
      { description := "Service", quantity := 3, unitPrice := 10, amount := 30 } := by
  refine ⟨fun item => ⟨?_, ?_, ?_, ?_⟩, fun r => ⟨rfl, rfl⟩, ?_⟩
  · simp only [normalizeLineItem]; split_ifs <;> rfl
  · simp only [normalizeLineItem]; split_ifs <;> rfl
  · simp only [normalizeLineItem]; split_ifs <;> rfl
  · simp only [normalizeLineItem]; split_ifs <;> rfl
  · norm_num [normalizeLineItem, round2, round_eq]

/-- C7: code bug evaluation.  With no explicit due date and no "Net N
days" term, the fallback computes `today + 30` even when the invoice
date was resolved (here invoice date day 0, today day 100, giving day
130), while the claim (and the source's own comment, route.ts 540)
expects `invoice date + 30 = 30`; the `today + 30` fallback applies
whether or not the invoice date resolved. -/
theorem c7_due_date_default_eval :
    resolveDueDate none 0 (some 0) 100 = Sum.inr 130 ∧
    resolveDueDate none 0 none 100 = Sum.inr 130 ∧
    (Sum.inr 130 : String ⊕ ℤ) ≠ Sum.inr (0 + 30 : ℤ) := by
  refine ⟨rfl, rfl, by decide⟩

/-- C8: when every extraction strategy fails (empty result list), the
dispatch returns the well-formed sentinel record: invoice number
"Unknown", vendor "Unknown Vendor", customer "Unknown Customer", a
single placeholder item, zero subtotal/tax/total, and the two computed
date strings; no error and no null value. -/
theorem c8_all_failed_sentinel (today todayPlus30 : String) :
    (extractInvoiceDataDispatch [] today todayPlus30).invoiceNumber = "Unknown" ∧
    (extractInvoiceDataDispatch [] today todayPlus30).vendor = "Unknown Vendor" ∧
    (extractInvoiceDataDispatch [] today todayPlus30).customer = "Unknown Customer" ∧
    (extractInvoiceDataDispatch [] today todayPlus30).items =
      [{ description := "Unable to extract items", quantity := 1, unitPrice := 0, amount := 0 }] ∧
    (extractInvoiceDataDispatch [] today todayPlus30).subtotal = 0 ∧
    (extractInvoiceDataDispatch [] today todayPlus30).tax = 0 ∧
    (extractInvoiceDataDispatch [] today todayPlus30).total = 0 ∧
    (extractInvoiceDataDispatch [] today todayPlus30).date = today ∧
    (extractInvoiceDataDispatch [] today todayPlus30).dueDate = todayPlus30 :=
  ⟨rfl, rfl, rfl, rfl, rfl, rfl, rfl, rfl, rfl⟩

/-- C9: frame property of the reconciliation step.  Both copies of
`validateInvoiceData` leave `invoiceNumber`, `date`, `dueDate`,
`vendor` and `customer` exactly unchanged, and leave number-typed
`subtotal` and `tax` unchanged as well; only the line items and the
total are rewritten. -/
theorem c9_validate_frame (r : ExtractedInvoice) :
    (validateInvoiceDataV2 r).invoiceNumber = r.invoiceNumber ∧
    (validateInvoiceDataV2 r).date = r.date ∧
    (validateInvoiceDataV2 r).dueDate = r.dueDate ∧
    (validateInvoiceDataV2 r).vendor = r.vendor ∧
    (validateInvoiceDataV2 r).customer = r.customer ∧
    (validateInvoiceDataV2 r).subtotal = r.subtotal ∧
    (validateInvoiceDataV2 r).tax = r.tax ∧
    (validateInvoiceDataV1 r).invoiceNumber = r.invoiceNumber ∧
    (validateInvoiceDataV1 r).date = r.date ∧
    (validateInvoiceDataV1 r).dueDate = r.dueDate ∧
    (validateInvoiceDataV1 r).vendor = r.vendor ∧
    (validateInvoiceDataV1 r).customer = r.customer ∧
    (validateInvoiceDataV1 r).subtotal = r.subtotal ∧
    (validateInvoiceDataV1 r).tax = r.tax :=
  ⟨rfl, rfl, rfl, rfl, rfl, rfl, rfl, rfl, rfl, rfl, rfl, rfl, rfl, rfl⟩

/-- C1 counterexample: on the record with items summing to 100, tax 8
and extracted total 108, the first-variant `validateInvoiceData`
(route.ts 1089-1156, cited by the claim) overwrites the total with the
items sum 100 instead of keeping 108 as the claim states. -/
theorem c1_claim_counterexample :
    (validateInvoiceDataV1 c1rec).total = 100 ∧
    (validateInvoiceDataV1 c1rec).total ≠ 108 := by
  constructor
  · norm_num [validateInvoiceDataV1, reconcileTotalV1, normalizeLineItem, round2,
      round_eq, c1rec]
  · norm_num [validateInvoiceDataV1, reconcileTotalV1, normalizeLineItem, round2,
      round_eq, c1rec]

/-- C1 (amended): the second-variant `validateInvoiceData` behaves as the
claim states — when the rounded items sum is more than 1 away from the
total it keeps the original total if `round2 (itemsTotal + tax)` is
within 1 of it and otherwise overwrites the total with that value, so the
100/8/108 example keeps total 108; the first-variant
`validateInvoiceData` instead overwrites the total with the rounded items
sum (ignoring tax) whenever the difference exceeds 1, giving total 100 on
the same example. -/
theorem c1_total_reconciliation (r : ExtractedInvoice) :
    ((validateInvoiceDataV2 r).total =
      if |round2 ((r.items.map normalizeLineItem).map LineItem.amount).sum - r.total| > 1 then
        if |round2 (round2 ((r.items.map normalizeLineItem).map LineItem.amount).sum + r.tax)
              - r.total| ≤ 1 then
          r.total
        else round2 (round2 ((r.items.map normalizeLineItem).map LineItem.amount).sum + r.tax)
      else r.total) ∧
    ((validateInvoiceDataV1 r).total =
      if |round2 ((r.items.map normalizeLineItem).map LineItem.amount).sum - r.total| > 1 then
        round2 ((r.items.map normalizeLineItem).map LineItem.amount).sum
      else r.total) ∧
    (validateInvoiceDataV2 c1rec).total = 108 ∧
    (validateInvoiceDataV1 c1rec).total = 100 := by
  refine ⟨rfl, rfl, ?_, ?_⟩
  · norm_num [validateInvoiceDataV2, reconcileTotalV2, normalizeLineItem, round2,
      round_eq, c1rec]
  · norm_num [validateInvoiceDataV1, reconcileTotalV1, normalizeLineItem, round2,
      round_eq, c1rec]

/-- C4: code bug evaluation.  The record `c4rec` has a resolved invoice
number, yet `validateIsInvoice` rejects it, and the only rejection
indicator that fires is `hasStatementStructure`: because `&&` binds
tighter than `||` in the source (route.ts 2944-2947), the
payment/balance disjunct is not guarded by the missing-invoice-number
condition, contrary to the claim that a record with a resolved invoice
number is never rejected by this structural rule. -/
theorem c4_structural_rule_eval :
    hasInvoiceNumberB c4rec = true ∧
    hasStatementStructureB c4rec = true ∧
    isLikelyStatementB c4rec = false ∧
    isLikelyReceiptB c4rec = false ∧
    hasReceiptStructureB c4rec = false ∧
    isCondoStatementB c4rec = false ∧
    isEmptyInvoiceB c4rec = false ∧
    hasNumericInconsistencyB c4rec = false ∧
    validateIsInvoice c4rec = false := by
  refine ⟨by decide, by decide, by decide, by decide, by decide, by decide, by decide,
    ?_, by decide⟩
  norm_num [hasNumericInconsistencyB, c4rec]

theorem orderedInsertDesc_perm (x : ExtractionResult) (l : List ExtractionResult) :
    (orderedInsertDesc x l).Perm (x :: l) := by
  induction l with
  | nil => exact List.Perm.refl _
  | cons y ys ih =>
    simp only [orderedInsertDesc]
    split_ifs
    · exact List.Perm.refl _
    · exact (List.Perm.cons y ih).trans (List.Perm.swap x y ys)

theorem sortByConfidenceDesc_perm (l : List ExtractionResult) :
    (sortByConfidenceDesc l).Perm l := by
  induction l with
  | nil => exact List.Perm.refl _
  | cons x xs ih =>
    exact (orderedInsertDesc_perm x (sortByConfidenceDesc xs)).trans (List.Perm.cons x ih)

theorem orderedInsertDesc_pairwise (x : ExtractionResult) (l : List ExtractionResult)
    (h : l.Pairwise (fun a b => b.confidence ≤ a.confidence)) :
    (orderedInsertDesc x l).Pairwise (fun a b => b.confidence ≤ a.confidence) := by
  induction l with
  | nil => simp [orderedInsertDesc]
  | cons y ys ih =>
    rcases List.pairwise_cons.mp h with ⟨hy, hys⟩
    simp only [orderedInsertDesc]
    split_ifs with hc
    · refine List.pairwise_cons.mpr ⟨fun z hz => ?_, h⟩
      rcases List.mem_cons.mp hz with rfl | hz'
      · exact hc
      · exact le_trans (hy z hz') hc
    · refine List.pairwise_cons.mpr ⟨fun z hz => ?_, ih hys⟩
      rcases List.mem_cons.mp ((orderedInsertDesc_perm x ys).mem_iff.mp hz) with rfl | hz'
      · exact le_of_lt (lt_of_not_le hc)
      · exact hy z hz'

theorem sortByConfidenceDesc_pairwise (l : List ExtractionResult) :
    (sortByConfidenceDesc l).Pairwise (fun a b => b.confidence ≤ a.confidence) := by
  induction l with
  | nil => simp [sortByConfidenceDesc]
  | cons x xs ih => exact orderedInsertDesc_pairwise x _ ih

theorem eq_of_perm_of_pairwise_gt :
    ∀ {l₁ l₂ : List ExtractionResult}, l₁.Perm l₂ →
      l₁.Pairwise (fun a b => b.confidence < a.confidence) →
      l₂.Pairwise (fun a b => b.confidence < a.confidence) → l₁ = l₂ := by
  intro l₁
  induction l₁ with
  | nil =>
    intro l₂ hp _ _
    exact hp.nil_eq
  | cons a t ih =>
    intro l₂ hp h₁ h₂
    cases l₂ with
    | nil => exact absurd hp.eq_nil (List.cons_ne_nil a t)
    | cons b t₂ =>
      by_cases hab : a = b
      · subst hab
        rw [ih hp.cons_inv (List.pairwise_cons.mp h₁).2 (List.pairwise_cons.mp h₂).2]
      · have ha2 : a ∈ t₂ := by
          rcases List.mem_cons.mp (hp.subset (List.mem_cons_self a t)) with h | h
          · exact absurd h hab
          · exact h
        have hb1 : b ∈ t := by
          rcases List.mem_cons.mp (hp.symm.subset (List.mem_cons_self b t₂)) with h | h
          · exact absurd h.symm hab
          · exact h
        have hba := (List.pairwise_cons.mp h₁).1 b hb1
        have hao := (List.pairwise_cons.mp h₂).1 a ha2
        exact absurd (hba.trans hao) (lt_irrefl _)

theorem sortByConfidenceDesc_pairwise_gt (l : List ExtractionResult)
    (hd : l.Pairwise (fun a b => a.confidence ≠ b.confidence)) :
    (sortByConfidenceDesc l).Pairwise (fun a b => b.confidence < a.confidence) := by
  have h1 := sortByConfidenceDesc_pairwise l
  have h2 : (sortByConfidenceDesc l).Pairwise (fun a b => a.confidence ≠ b.confidence) :=
    ((sortByConfidenceDesc_perm l).pairwise_iff (fun h => Ne.symm h)).mpr hd
  exact (h1.and h2).imp fun h => lt_of_le_of_ne h.1 h.2.symm

theorem sortByConfidenceDesc_eq_of_perm {l₁ l₂ : List ExtractionResult}
    (hp : l₁.Perm l₂)
    (hd : l₁.Pairwise (fun a b => a.confidence ≠ b.confidence)) :
    sortByConfidenceDesc l₁ = sortByConfidenceDesc l₂ := by
  have hd₂ := (hp.pairwise_iff (fun h => Ne.symm h)).mp hd
  exact eq_of_perm_of_pairwise_gt
    ((sortByConfidenceDesc_perm l₁).trans (hp.trans (sortByConfidenceDesc_perm l₂).symm))
    (sortByConfidenceDesc_pairwise_gt l₁ hd) (sortByConfidenceDesc_pairwise_gt l₂ hd₂)

/-- C10: `mergeExtractionResults` sorts its input by descending
confidence before merging, so on lists with pairwise-distinct confidence
scores the merged record — `extractionMethods` included — is invariant
under permutation of the input list, for both route variants of the
function. -/
theorem c10_merge_permutation_invariant (l₁ l₂ : List ExtractionResult)
    (hperm : l₁.Perm l₂)
    (hdist : l₁.Pairwise (fun a b => a.confidence ≠ b.confidence)) :
    mergeExtractionResultsV1 l₁ = mergeExtractionResultsV1 l₂ ∧
    mergeExtractionResultsV2 l₁ = mergeExtractionResultsV2 l₂ := by
  have hcore : mergeCore l₁ = mergeCore l₂ := by
    unfold mergeCore
    rw [sortByConfidenceDesc_eq_of_perm hperm hdist]
  exact ⟨congrArg validateInvoiceDataV1 hcore, congrArg validateInvoiceDataV2 hcore⟩

/-- C10 witness: swapping the 0.9-confidence and 0.7-confidence results
leaves both variants' merged record unchanged. -/
theorem c10_merge_permutation_witness :
    mergeExtractionResultsV1 [exA, exB] = mergeExtractionResultsV1 [exB, exA] ∧
    mergeExtractionResultsV2 [exA, exB] = mergeExtractionResultsV2 [exB, exA] := by
  refine c10_merge_permutation_invariant [exA, exB] [exB, exA] ?_ ?_
  · exact List.Perm.swap exB exA []
  · refine List.pairwise_cons.mpr ⟨fun b hb => ?_, by simp⟩
    rw [List.mem_singleton] at hb
    subst hb
    norm_num [exA, exB]

theorem validateInvoiceDataV2_vendor (r : ExtractedInvoice) :
    (validateInvoiceDataV2 r).vendor = r.vendor := rfl

theorem validateInvoiceDataV2_items_eq (r : ExtractedInvoice) :
    (validateInvoiceDataV2 r).items = r.items.map normalizeLineItem := rfl

theorem sortByConfidenceDesc_pair (A B : ExtractionResult)
    (h : B.confidence ≤ A.confidence) :
    sortByConfidenceDesc [A, B] = [A, B] := by
  simp [sortByConfidenceDesc, orderedInsertDesc, h]

theorem mergeCore_pair (A B : ExtractionResult) (h : B.confidence ≤ A.confidence) :
    mergeCore [A, B] =
      { mergeStep A.data B.data with
        extractionMethods :=
          if mergeStepUsed A.data B.data && !([A.method].contains B.method) then
            [A.method, B.method]
          else [A.method] } := by
  unfold mergeCore
  rw [sortByConfidenceDesc_pair A B h]
  simp [mergeLoop]

/-- C3 counterexample: merging the 0.9-confidence result `c3A` (one
genuine line item) with the 0.7-confidence result `c3B` (two line items)
replaces the items with `c3B`'s even though `c3A`'s items list is not
empty and not the items-not-detected placeholder, so the claim's
"replaces only if the current value is empty or default" is false on
this input (the count-based special case fired). -/
theorem c3_claim_counterexample :
    (mergeExtractionResultsV2 [c3A, c3B]).items = c3B.data.items ∧
    c3B.data.items ≠ c3A.data.items ∧
    specEmptyOrDefaultItems c3A.data.items = false := by
  refine ⟨?_, by simp [c3A, c3B], by decide⟩
  have h1 : isEmptyOrDefaultItems c3A.data.items = false := by decide
  have h3 : c3A.data.items.length = 1 := by decide
  have h4 : c3B.data.items.length = 2 := by decide
  have hc := mergeCore_pair c3A c3B (by norm_num [c3A, c3B])
  rw [mergeExtractionResultsV2, validateInvoiceDataV2_items_eq, hc]
  simp only [mergeStep, h1, Bool.false_and, Bool.false_eq_true, if_false]
  rw [if_pos (by rw [h3, h4]; exact ⟨by norm_num, by norm_num⟩)]
  norm_num [c3B, normalizeLineItem]

/-- C3 (amended): starting from the higher-confidence result, each
string field is replaced only if the current value is empty or default
(empty, "Unknown", or containing "Unknown") and the alternative is not;
the total is replaced only if it is zero and the alternative's is not;
number fields `subtotal`/`tax` are never replaced; the items are first
subject to the same rule with the default being an empty list or a
single "Unable to extract" placeholder (not the "Item not detected"
one), and are additionally replaced wholesale whenever the alternative
has strictly more items and the current merged list has at most one. -/
theorem c3_merge_rule (A B : ExtractionResult) (h : B.confidence < A.confidence) :
    (mergeCore [A, B]).invoiceNumber = mergeField A.data.invoiceNumber B.data.invoiceNumber ∧
    (mergeCore [A, B]).date = mergeField A.data.date B.data.date ∧
    (mergeCore [A, B]).dueDate = mergeField A.data.dueDate B.data.dueDate ∧
    (mergeCore [A, B]).vendor = mergeField A.data.vendor B.data.vendor ∧
    (mergeCore [A, B]).customer = mergeField A.data.customer B.data.customer ∧
    (mergeCore [A, B]).subtotal = A.data.subtotal ∧
    (mergeCore [A, B]).tax = A.data.tax ∧
    ((mergeCore [A, B]).total =
      if isEmptyOrDefaultTotal A.data.total && !isEmptyOrDefaultTotal B.data.total then
        B.data.total
      else A.data.total) ∧
    ((mergeCore [A, B]).items =
      if B.data.items.length >
            (if isEmptyOrDefaultItems A.data.items && !isEmptyOrDefaultItems B.data.items then
              B.data.items
            else A.data.items).length ∧
          (if isEmptyOrDefaultItems A.data.items && !isEmptyOrDefaultItems B.data.items then
              B.data.items
            else A.data.items).length ≤ 1 then
        B.data.items
      else
        if isEmptyOrDefaultItems A.data.items && !isEmptyOrDefaultItems B.data.items then
          B.data.items
        else A.data.items) ∧
    (mergeExtractionResultsV2 [A, B]).vendor = mergeField A.data.vendor B.data.vendor := by
  have hc := mergeCore_pair A B h.le
  refine ⟨?_, ?_, ?_, ?_, ?_, ?_, ?_, ?_, ?_, ?_⟩ <;>
    first
      | (rw [hc]; rfl)
      | (rw [mergeExtractionResultsV2, validateInvoiceDataV2_vendor, hc]; rfl)

/-- C3 witness: the claim's example through the amended rule — merging
A (confidence 0.9, vendor "Unknown Vendor") with B (confidence 0.7,
vendor "Acme Corp") yields vendor "Acme Corp". -/
theorem c3_merge_rule_witness :
    exB.confidence < exA.confidence ∧
    (mergeExtractionResultsV2 [exA, exB]).vendor = "Acme Corp" := by
  have h : exB.confidence < exA.confidence := by norm_num [exA, exB]
  refine ⟨h, ?_⟩
  rw [(c3_merge_rule exA exB h).2.2.2.2.2.2.2.2.2]
  decide
